import Mathlib

/-!
Shallow embedding of the authentication/authorization/security middleware
of the review-management backend (src/middleware/auth.js and the earlier
variant in src/unnamed/part_000), together with theorems settling the
spec claims about it.

Times are milliseconds since epoch (`Nat`), except token claim times
(`exp`, `iat`) which are seconds (`Int`, as the code compares them with
`Math.floor(Date.now() / 1000)`).  JS strings model as `String`; a JS
falsy-string test (`!s`) models as `s = ""`; absent values model as
`Option`.
-/

namespace AuthMw

/-! ### Role-based access control (auth.js `checkRolePermission`) -/

/-- The `roleHierarchy[userRole] || [userRole]` lookup of auth.js lines 432-439. -/
def roleHierarchy (userRole : String) : List String :=
  if userRole = "admin" then ["admin", "manager", "client"]
  else if userRole = "manager" then ["manager", "client"]
  else if userRole = "client" then ["client"]
  else [userRole]

/-- auth.js `checkRolePermission(userRole, allowedRoles, strictMode)`. -/
def checkRolePermission (userRole : String) (allowedRoles : List String)
    (strictMode : Bool) : Bool :=
  if allowedRoles.contains userRole then
    true
  else if !strictMode then
    let userPermissions := roleHierarchy userRole
    allowedRoles.any (fun role => userPermissions.contains role)
  else
    false

/-- The fixed dominance relation of the spec: admin ⊇ manager ⊇ client,
each role dominating itself. -/
def dominates (r s : String) : Bool :=
  (r = "admin" && (s = "admin" || s = "manager" || s = "client")) ||
  (r = "manager" && (s = "manager" || s = "client")) ||
  (r = "client" && s = "client")

/-! ### Token structural and claim validation (auth.js) -/

/-- auth.js `isValidJWTFormat(token)` for a present string token:
`token.startsWith('eyJ') && token.split('.').length === 3`.
(The `token &&` / `typeof token === 'string'` guards are vacuous for a
present `String`; splitting on the single character `'.'` yields exactly
one more segment than there are dots, so the segment-count test is the
dot-count test.) -/
def isValidJWTFormat (token : String) : Bool :=
  ['e', 'y', 'J'].isPrefixOf token.toList &&
  (token.toList.count '.' + 1 = 3)

/-- Decoded token claims, as consumed by auth.js `isTokenValid`.
`aud`/`iss` model a missing or empty (falsy) claim as `""`. -/
structure DecodedToken where
  uid : String
  exp : Int
  iat : Int
  aud : String
  iss : String
  deriving Repr, DecidableEq

/-- auth.js `isTokenValid(decodedToken)` with `now = floor(Date.now()/1000)`
passed explicitly. -/
def isTokenValid (d : DecodedToken) (now : Int) : Bool :=
  if d.exp ≤ now then false
  else if d.iat > now + 60 then false
  else if d.aud = "" ∨ d.iss = "" then false
  else true

/-! ### Association-list model of the JS `Map`s -/

/-- JS `Map.get(k)` on an association list. -/
def mget (m : List (String × α)) (k : String) : Option α :=
  (m.find? (fun e => e.1 = k)).map (·.2)

/-- JS `Map.set(k, v)`: replace in place if present, else append
(JS `Map` insertion-order semantics). -/
def mset (m : List (String × α)) (k : String) (v : α) : List (String × α) :=
  if (m.find? (fun e => e.1 = k)).isSome then
    m.map (fun e => if e.1 = k then (k, v) else e)
  else
    m ++ [(k, v)]

/-! ### Abuse tracker state (auth.js module-level maps) -/

/-- One entry of the Failed-Attempt Log: `{timestamp, reason}`. -/
structure Attempt where
  timestamp : Nat
  reason : String
  deriving Repr, DecidableEq

/-- The module-level mutable maps of auth.js:
`failedAttempts`, `suspiciousIPs` (ip → counter!), `blacklistedIPs`. -/
structure SecurityState where
  failedAttempts : List (String × List Attempt)
  suspiciousIPs : List (String × Nat)
  blacklistedIPs : List String
  deriving Repr, DecidableEq

/-- Empty initial state of the module. -/
def SecurityState.empty : SecurityState := ⟨[], [], []⟩

/-- auth.js `trackFailedAttempt(ip, reason)` at clock `now` (ms).
Appends to the log (keeping the last 10), then increments the
`suspiciousIPs` counter when ≥ 5 attempts fall in the trailing 15 min. -/
def trackFailedAttempt (ip reason : String) (now : Nat)
    (st : SecurityState) : SecurityState :=
  let attempts0 := ((mget st.failedAttempts ip).getD []) ++ [⟨now, reason⟩]
  let attempts := if attempts0.length > 10 then attempts0.drop 1 else attempts0
  let failedAttempts := mset st.failedAttempts ip attempts
  let recentAttempts := attempts.filter (fun a => now - a.timestamp < 15 * 60 * 1000)
  if recentAttempts.length ≥ 5 then
    { st with
      failedAttempts
      suspiciousIPs := mset st.suspiciousIPs ip ((mget st.suspiciousIPs ip).getD 0 + 1) }
  else
    { st with failedAttempts }

/-- auth.js `cleanupSecurityData()` at clock `now` (ms): filters each
Failed-Attempt Log to the last 15 minutes (dropping empty keys), and
deletes every `suspiciousIPs` entry whose stored VALUE (the counter) is
`< now - 3600000` — the code compares the counter against a timestamp
cutoff. -/
def cleanupSecurityData (now : Nat) (st : SecurityState) : SecurityState :=
  let fifteenMinutesAgo := now - 15 * 60 * 1000
  let failedAttempts :=
    (st.failedAttempts.map
      (fun e => (e.1, e.2.filter (fun a => a.timestamp > fifteenMinutesAgo)))).filter
      (fun e => e.2 ≠ [])
  let oneHourAgo := now - 60 * 60 * 1000
  let suspiciousIPs := st.suspiciousIPs.filter (fun e => ¬ (e.2 < oneHourAgo))
  { st with failedAttempts, suspiciousIPs }

/-! ### Error responses and the IP blacklist middleware -/

/-- The `{status, code}` pair of an error response body. -/
structure ErrorResponse where
  status : Nat
  code : String
  deriving Repr, DecidableEq

/-- auth.js `ipBlacklist(req, res, next)`: `some resp` means the request
was rejected with `resp`; `none` means `next()` was called. Promotes the
IP into `blacklistedIPs` once its suspicious counter exceeds 20. -/
def ipBlacklist (ip : String) (st : SecurityState) :
    Option ErrorResponse × SecurityState :=
  if st.blacklistedIPs.contains ip then
    (some ⟨403, "IP_BLACKLISTED"⟩, st)
  else if (mget st.suspiciousIPs ip).getD 0 > 20 then
    (some ⟨403, "IP_SUSPICIOUS_BLOCKED"⟩,
     { st with blacklistedIPs := st.blacklistedIPs ++ [ip] })
  else
    (none, st)

/-- The pipeline prefix relevant to blacklisting: the `ipBlacklist`
middleware runs first; `rest` is whatever response the remaining stages
(token validation, …) would produce — quantifying over it captures
"regardless of the token carried". -/
def pipelineResponse (ip : String) (st : SecurityState) (rest : ErrorResponse) :
    ErrorResponse × SecurityState :=
  match ipBlacklist ip st with
  | (some resp, st1) => (resp, st1)
  | (none, st1) => (rest, st1)

/-! ### The authentication middleware (auth.js `authenticateToken`) -/

/-- Firebase user record returned by `auth.getUser(uid)`. -/
structure FirebaseUser where
  uid : String
  email : String
  emailVerified : Bool
  disabled : Bool
  deriving Repr, DecidableEq

/-- Supabase `users` row as selected by `getSupabaseUser`. -/
structure SupaUser where
  id : String
  email : String
  role : String
  firebase_uid : Option String
  email_verified : Bool
  is_suspended : Bool
  deriving Repr, DecidableEq

/-- The `req.user` object attached on success (the Principal). -/
structure Principal where
  uid : String
  firebase_uid : String
  email : String
  role : String
  deriving Repr, DecidableEq

/-- External-collaborator outcomes feeding one run of the middleware:
the bearer token (if any), the result of `auth.verifyIdToken` (error
carries the Firebase `error.code` string), the result of `auth.getUser`,
the value `getSupabaseUser` resolves to (`none` covers both "no row"
and its internally-caught errors), and the clock in seconds. -/
structure AuthEnv where
  token : Option String
  verifyOutcome : Except String DecodedToken
  getUserOutcome : Except String FirebaseUser
  supaUser : Option SupaUser
  now : Int
  deriving Repr

/-- Result of one middleware run: the error response sent (if any),
whether `auth.verifyIdToken` was invoked, and the attached `req.user`. -/
structure AuthResult where
  response : Option ErrorResponse
  verifyCalled : Bool
  principal : Option Principal
  deriving Repr, DecidableEq

/-- auth.js `handleAuthError(error)`: maps a Firebase error code to a
`{status, code}` response (default 401 `AUTH_FAILED`). -/
def handleAuthError (code : String) : ErrorResponse :=
  if code = "auth/id-token-expired" then ⟨401, "TOKEN_EXPIRED"⟩
  else if code = "auth/id-token-revoked" then ⟨401, "TOKEN_REVOKED"⟩
  else if code = "auth/argument-error" then ⟨401, "TOKEN_INVALID"⟩
  else if code = "auth/user-not-found" then ⟨404, "USER_NOT_FOUND"⟩
  else if code = "auth/user-disabled" then ⟨403, "ACCOUNT_DISABLED"⟩
  else ⟨401, "AUTH_FAILED"⟩

/-- auth.js `authenticateToken` (production variant), lines 86-212,
restricted to its response / verify-call / attachment behaviour. -/
def authenticateToken (env : AuthEnv) : AuthResult :=
  match env.token with
  | none => ⟨some ⟨401, "TOKEN_MISSING"⟩, false, none⟩
  | some token =>
    if ¬ isValidJWTFormat token then
      ⟨some ⟨401, "TOKEN_INVALID_FORMAT"⟩, false, none⟩
    else
      match env.verifyOutcome with
      | .error c => ⟨some (handleAuthError c), true, none⟩
      | .ok decoded =>
        if ¬ isTokenValid decoded env.now then
          ⟨some ⟨401, "TOKEN_CLAIMS_INVALID"⟩, true, none⟩
        else
          match env.getUserOutcome with
          | .error c => ⟨some (handleAuthError c), true, none⟩
          | .ok userData =>
            if userData.disabled then ⟨some ⟨403, "ACCOUNT_DISABLED"⟩, true, none⟩
            else
              match env.supaUser with
              | none => ⟨some ⟨404, "USER_NOT_FOUND_DB"⟩, true, none⟩
              | some user =>
                if user.role = "inactive" ∨ user.is_suspended then
                  ⟨some ⟨403, "ACCOUNT_INACTIVE"⟩, true, none⟩
                else
                  ⟨none, true,
                   some ⟨user.id, userData.uid,
                         if userData.email = "" then user.email else userData.email,
                         user.role⟩⟩

/-- auth.js `optionalAuth`, lines 270-308: every path calls `next()`
(response is always `none`); a Principal is attached only when every
lookup succeeds and the row's role is not `'inactive'` — the
`is_suspended` flag is never consulted. Any thrown error is caught and
swallowed. -/
def optionalAuth (env : AuthEnv) : AuthResult :=
  match env.token with
  | none => ⟨none, false, none⟩
  | some token =>
    if ¬ isValidJWTFormat token then ⟨none, false, none⟩
    else
      match env.verifyOutcome with
      | .error _ => ⟨none, true, none⟩
      | .ok _ =>
        match env.getUserOutcome with
        | .error _ => ⟨none, true, none⟩
        | .ok userData =>
          match env.supaUser with
          | none => ⟨none, true, none⟩
          | some user =>
            if user.role ≠ "inactive" then
              ⟨none, true,
               some ⟨user.id, userData.uid,
                     if userData.email = "" then user.email else userData.email,
                     user.role⟩⟩
            else
              ⟨none, true, none⟩

/-! ### Rate limiting -/

/-- One `rateLimitStore` entry of part_000: `{count, resetTime}` (ms). -/
structure RateWindow where
  count : Nat
  resetTime : Nat
  deriving Repr, DecidableEq

/-- Body of a rate-limit rejection: status, error code, `retryAfter`
in seconds. -/
structure RateLimitErrorBody where
  status : Nat
  code : String
  retryAfter : Nat
  deriving Repr, DecidableEq

/-- Outcome of one request through a rate limiter. -/
inductive RateOutcome where
  | allowed
  | rejected (body : RateLimitErrorBody)
  deriving Repr, DecidableEq

/-- JS `Math.ceil(x / 1000)` on a non-negative millisecond count. -/
def ceilSeconds (ms : Nat) : Nat := (ms + 999) / 1000

/-- Seconds remaining until the window reset, as part_000 computes it:
`Math.ceil((userLimit.resetTime - now) / 1000)`. -/
def secondsUntilReset (resetTime now : Nat) : Nat := ceilSeconds (resetTime - now)

/-- part_000 `rateLimit(maxRequests, windowMs)` middleware body for one
request at clock `now` against that key's current store entry. -/
def rateLimitStep (maxRequests windowMs now : Nat) :
    Option RateWindow → RateOutcome × Option RateWindow
  | none => (.allowed, some ⟨1, now + windowMs⟩)
  | some u =>
    if now > u.resetTime then
      (.allowed, some ⟨1, now + windowMs⟩)
    else if u.count ≥ maxRequests then
      (.rejected ⟨429, "RATE_LIMIT_EXCEEDED", secondsUntilReset u.resetTime now⟩,
       some u)
    else
      (.allowed, some ⟨u.count + 1, u.resetTime⟩)

/-- Run part_000's limiter over a sequence of request times (one key). -/
def rateLimitRun (maxRequests windowMs : Nat) :
    List Nat → Option RateWindow → List RateOutcome × Option RateWindow
  | [], w => ([], w)
  | t :: ts, w =>
    match rateLimitStep maxRequests windowMs t w with
    | (o, w1) =>
      match rateLimitRun maxRequests windowMs ts w1 with
      | (os, w2) => (o :: os, w2)

/-- auth.js `createRateLimit` rejection body (its custom `handler`):
`retryAfter` is `Math.ceil(windowMs / 1000)` — computed from the
configured window length only, independent of the clock and of the
current window's reset time. -/
def createRateLimitBody (windowMs : Nat) : RateLimitErrorBody :=
  ⟨429, "RATE_LIMIT_EXCEEDED", ceilSeconds windowMs⟩

/-! ### Identity reconciliation (part_000 `authenticateToken`, lines 44-125) -/

/-- Supabase `users` row as selected by part_000
(`id, email, role, firebase_uid`). -/
structure UserRecord where
  id : Nat
  email : String
  role : String
  firebase_uid : Option String
  deriving Repr, DecidableEq

/-- The `.eq("firebase_uid", uid).single()` lookup over the table. -/
def findByFirebaseUid (db : List UserRecord) (uid : String) : Option UserRecord :=
  db.find? (fun u => u.firebase_uid = some uid)

/-- The `.eq("email", email).single()` lookup over the table. -/
def findByEmail (db : List UserRecord) (email : String) : Option UserRecord :=
  db.find? (fun u => u.email = email)

/-- Result of one reconciliation run: the resolved record, the table
afterwards, and how many inserts/updates were performed. -/
structure ReconcileResult where
  user : UserRecord
  db : List UserRecord
  inserts : Nat
  updates : Nat
  deriving Repr, DecidableEq

/-- part_000 reconciliation: find by `firebase_uid`; else by email —
linking an unlinked row, failing on a row already linked elsewhere —
else insert a new row with `role: decodedToken.role || "client"`
(`tokenRole = ""` models an absent/falsy role claim). `freshId` is the
id the insert returns. -/
def reconcileUser (uid email tokenRole : String) (freshId : Nat)
    (db : List UserRecord) : Except String ReconcileResult :=
  match findByFirebaseUid db uid with
  | some user => .ok ⟨user, db, 0, 0⟩
  | none =>
    match findByEmail db email with
    | some existingUser =>
      match existingUser.firebase_uid with
      | none =>
        let updated := { existingUser with firebase_uid := some uid, email := email }
        .ok ⟨updated,
             db.map (fun u => if u.id = existingUser.id then updated else u), 0, 1⟩
      | some _ => .error "User exists with different Firebase account"
    | none =>
      let newUser : UserRecord :=
        ⟨freshId, email, if tokenRole = "" then "client" else tokenRole, some uid⟩
      .ok ⟨newUser, db ++ [newUser], 1, 0⟩

/-- The row part_000 inserts on first login:
`{firebase_uid: uid, email, role: decodedToken.role || "client"}`. -/
def provisionedRecord (uid email tokenRole : String) (freshId : Nat) : UserRecord :=
  ⟨freshId, email, if tokenRole = "" then "client" else tokenRole, some uid⟩

end AuthMw

namespace AuthMw

/-! ## Helper lemmas -/

theorem list_any_ext {α : Type} (l : List α) {f g : α → Bool}
    (h : ∀ a, f a = g a) : l.any f = l.any g := by
  induction l with
  | nil => rfl
  | cons a l ih => simp [List.any_cons, h a, ih]

theorem handleAuthError_code_ne (c : String) :
    (handleAuthError c).code ≠ "TOKEN_CLAIMS_INVALID" := by
  unfold handleAuthError
  split_ifs <;> decide

theorem isTokenValid_iff (d : DecodedToken) (now : Int) :
    isTokenValid d now = true ↔
      (now < d.exp ∧ d.iat ≤ now + 60 ∧ d.aud ≠ "" ∧ d.iss ≠ "") := by
  unfold isTokenValid
  split_ifs with h1 h2 h3
  · simp only [Bool.false_eq_true, false_iff]
    intro h
    omega
  · simp only [Bool.false_eq_true, false_iff]
    intro h
    omega
  · simp only [Bool.false_eq_true, false_iff]
    intro h
    rcases h3 with h3 | h3 <;> simp_all
  · simp only [true_iff]
    push_neg at h3
    refine ⟨by omega, by omega, h3.1, h3.2⟩

/-! ## Claim C1 — Suspicion Score decay -/

/-- C1 (code bug shown): five failed attempts from `203.0.113.5` at
t = 7,200,000 ms create a Suspicion Score entry (count 1) first flagged
at that very instant, yet `cleanupSecurityData` run at the same instant
deletes it — the code compares the stored counter against the
`now - 1h` timestamp cutoff, so entries flagged within the last hour are
not retained, contradicting the claimed decay rule. -/
theorem sweep_deletes_fresh_suspicion_C1 :
    (trackFailedAttempt "203.0.113.5" "NO_TOKEN" 7200000
      (trackFailedAttempt "203.0.113.5" "NO_TOKEN" 7200000
        (trackFailedAttempt "203.0.113.5" "NO_TOKEN" 7200000
          (trackFailedAttempt "203.0.113.5" "NO_TOKEN" 7200000
            (trackFailedAttempt "203.0.113.5" "NO_TOKEN" 7200000
              SecurityState.empty))))).suspiciousIPs
      = [("203.0.113.5", 1)] ∧
    (cleanupSecurityData 7200000
      (trackFailedAttempt "203.0.113.5" "NO_TOKEN" 7200000
        (trackFailedAttempt "203.0.113.5" "NO_TOKEN" 7200000
          (trackFailedAttempt "203.0.113.5" "NO_TOKEN" 7200000
            (trackFailedAttempt "203.0.113.5" "NO_TOKEN" 7200000
              (trackFailedAttempt "203.0.113.5" "NO_TOKEN" 7200000
                SecurityState.empty)))))).suspiciousIPs
      = [] := by
  decide

/-! ## Claim C2 — rejection once Suspicion Score exceeds 20 -/

/-- C2 counterexample: with Suspicion Score 21 for `203.0.113.5` and the
IP not yet blacklisted, the next request is rejected with code
`IP_SUSPICIOUS_BLOCKED`, not `IP_BLACKLISTED` as the claim states. -/
theorem next_request_code_C2_counterexample :
    (ipBlacklist "203.0.113.5"
      ⟨[], [("203.0.113.5", 21)], []⟩).1 = some ⟨403, "IP_SUSPICIOUS_BLOCKED"⟩ ∧
    ("IP_SUSPICIOUS_BLOCKED" : String) ≠ "IP_BLACKLISTED" := by
  decide

/-- C2 (amended): for every client key with Suspicion Score above 20 and
not yet blacklisted, the next request — whatever the rest of the
pipeline (hence the token) would have produced — is rejected 403 with
code `IP_SUSPICIOUS_BLOCKED` and the key is promoted to the blacklist;
every request after that is rejected 403 with code `IP_BLACKLISTED`. -/
theorem blacklist_promotion_C2 (ip : String) (st : SecurityState)
    (r1 r2 : ErrorResponse)
    (hb : st.blacklistedIPs.contains ip = false)
    (hc : 20 < (mget st.suspiciousIPs ip).getD 0) :
    pipelineResponse ip st r1 =
      (⟨403, "IP_SUSPICIOUS_BLOCKED"⟩,
       { st with blacklistedIPs := st.blacklistedIPs ++ [ip] }) ∧
    (pipelineResponse ip
      { st with blacklistedIPs := st.blacklistedIPs ++ [ip] } r2).1 =
      ⟨403, "IP_BLACKLISTED"⟩ := by
  have hb2 : ip ∉ st.blacklistedIPs := by simpa using hb
  have hmem : ip ∈ st.blacklistedIPs ++ [ip] := by simp
  constructor
  · simp [pipelineResponse, ipBlacklist, hb2, hc]
  · simp [pipelineResponse, ipBlacklist, hmem]

/-- Witness for C2's theorem at a concrete state. -/
theorem blacklist_promotion_C2_witness :
    pipelineResponse "203.0.113.5" ⟨[], [("203.0.113.5", 21)], []⟩ ⟨200, "HANDLER"⟩ =
      (⟨403, "IP_SUSPICIOUS_BLOCKED"⟩, ⟨[], [("203.0.113.5", 21)], ["203.0.113.5"]⟩) ∧
    (pipelineResponse "203.0.113.5" ⟨[], [("203.0.113.5", 21)], ["203.0.113.5"]⟩
      ⟨200, "HANDLER"⟩).1 = ⟨403, "IP_BLACKLISTED"⟩ :=
  blacklist_promotion_C2 "203.0.113.5" ⟨[], [("203.0.113.5", 21)], []⟩
    ⟨200, "HANDLER"⟩ ⟨200, "HANDLER"⟩ (by decide) (by decide)

/-! ## Claim C3 — provisioning role on first login -/

/-- C3 counterexample: with an empty user table, reconciling a verified
token that carries role claim `"admin"` provisions the new record with
role `"admin"`, not `"client"` — the provisioned role is not independent
of the token's role claim. -/
theorem provision_role_C3_counterexample :
    reconcileUser "fb1" "a@b.c" "admin" 1 [] =
      .ok ⟨⟨1, "a@b.c", "admin", some "fb1"⟩,
           [⟨1, "a@b.c", "admin", some "fb1"⟩], 1, 0⟩ ∧
    ("admin" : String) ≠ "client" :=
  ⟨rfl, by decide⟩

/-- C3 (amended): when no record matches the external id and none the
email, reconciliation inserts exactly one new record, active with the
supplied email and external id; its role is `"client"` exactly when the
token carries no (truthy) role claim, and otherwise is the token's role
claim verbatim. -/
theorem provision_defaults_role_C3 (uid email tokenRole : String)
    (freshId : Nat) (db : List UserRecord)
    (h1 : findByFirebaseUid db uid = none)
    (h2 : findByEmail db email = none) :
    reconcileUser uid email tokenRole freshId db =
      .ok ⟨⟨freshId, email, if tokenRole = "" then "client" else tokenRole, some uid⟩,
           db ++ [⟨freshId, email,
                   if tokenRole = "" then "client" else tokenRole, some uid⟩],
           1, 0⟩ := by
  unfold reconcileUser
  rw [h1, h2]

/-- Witness for C3's theorem at a concrete input. -/
theorem provision_defaults_role_C3_witness :
    reconcileUser "fb1" "a@b.c" "" 1 [] =
      .ok ⟨⟨1, "a@b.c", if ("" : String) = "" then "client" else "", some "fb1"⟩,
           [] ++ [⟨1, "a@b.c", if ("" : String) = "" then "client" else "", some "fb1"⟩],
           1, 0⟩ :=
  provision_defaults_role_C3 "fb1" "a@b.c" "" 1 [] (by decide) (by decide)

/-! ## Claim C4 — optionalAuth is best-effort -/

/-- C4 counterexample: a request through `optionalAuth` whose resolved
user record is suspended (`is_suspended = true`, role `"client"`) still
gets a Principal attached — the claim's "including when the resolved
user record is suspended" clause fails. -/
theorem optionalAuth_suspended_C4_counterexample :
    (optionalAuth
      ⟨some "eyJx.y.z",
       .ok ⟨"fb1", 100, 0, "aud", "iss"⟩,
       .ok ⟨"fb1", "a@b.c", true, false⟩,
       some ⟨"u1", "a@b.c", "client", some "fb1", true, true⟩,
       0⟩).principal =
      some ⟨"u1", "fb1", "a@b.c", "client"⟩ ∧
    (⟨"u1", "a@b.c", "client", some "fb1", true, true⟩ : SupaUser).is_suspended
      = true := by
  constructor
  · decide
  · rfl

/-- C4 (amended): `optionalAuth` never sends an error response, and a
Principal is attached exactly when the token is present and well-formed,
provider verification and user fetch succeed, a user record resolves,
and that record's role is not `"inactive"` — the suspension flag is not
consulted, so a suspended record with an active role still yields a
Principal. -/
theorem optionalAuth_best_effort_C4 (env : AuthEnv) :
    (optionalAuth env).response = none ∧
    ((optionalAuth env).principal ≠ none ↔
      (∃ t, env.token = some t ∧ isValidJWTFormat t = true) ∧
      (∃ d, env.verifyOutcome = .ok d) ∧
      (∃ u, env.getUserOutcome = .ok u) ∧
      (∃ su, env.supaUser = some su ∧ su.role ≠ "inactive")) := by
  rcases env with ⟨tok, vo, guo, su, now⟩
  cases tok with
  | none => simp [optionalAuth]
  | some t =>
    by_cases hf : isValidJWTFormat t = true
    · cases vo with
      | error c => simp [optionalAuth, hf]
      | ok d =>
        cases guo with
        | error c => simp [optionalAuth, hf]
        | ok u =>
          cases su with
          | none => simp [optionalAuth, hf]
          | some s =>
            by_cases hr : s.role = "inactive"
            · simp [optionalAuth, hf, hr]
            · simp [optionalAuth, hf, hr]
    · simp [optionalAuth, hf]

/-! ## Claim C5 — role hierarchy in authorize -/

/-- C5: the three pinned access-control decisions, the strict-mode
characterization (membership only) for every role, and the lenient-mode
characterization for each hierarchy role: allowed iff the role itself or
some role it dominates appears in `allowedRoles`. -/
theorem checkRolePermission_hierarchy_C5 :
    checkRolePermission "admin" ["client"] false = true ∧
    checkRolePermission "client" ["admin"] false = false ∧
    checkRolePermission "admin" ["client"] true = false ∧
    (∀ (role : String) (allowed : List String),
      checkRolePermission role allowed true = allowed.contains role) ∧
    (∀ allowed : List String,
      checkRolePermission "admin" allowed false =
        (allowed.contains "admin" || allowed.any (fun r => dominates "admin" r))) ∧
    (∀ allowed : List String,
      checkRolePermission "manager" allowed false =
        (allowed.contains "manager" || allowed.any (fun r => dominates "manager" r))) ∧
    (∀ allowed : List String,
      checkRolePermission "client" allowed false =
        (allowed.contains "client" || allowed.any (fun r => dominates "client" r))) := by
  refine ⟨by decide, by decide, by decide, ?_, ?_, ?_, ?_⟩
  · intro role allowed
    unfold checkRolePermission
    cases h : allowed.contains role <;> simp [h]
  · intro allowed
    have hpt : ∀ r : String,
        ((["admin", "manager", "client"] : List String).contains r)
          = dominates "admin" r := by
      intro r
      simp [dominates, List.contains_cons, Bool.or_assoc]
    unfold checkRolePermission
    cases h : allowed.contains "admin" with
    | true => simp [h]
    | false =>
      simp only [h, Bool.false_eq_true, if_false, Bool.not_false, if_true,
        Bool.false_or]
      exact list_any_ext allowed (fun r => by rw [← hpt r]; rfl)
  · intro allowed
    have hpt : ∀ r : String,
        ((["manager", "client"] : List String).contains r)
          = dominates "manager" r := by
      intro r
      simp [dominates, List.contains_cons, Bool.or_assoc]
    unfold checkRolePermission
    cases h : allowed.contains "manager" with
    | true => simp [h]
    | false =>
      simp only [h, Bool.false_eq_true, if_false, Bool.not_false, if_true,
        Bool.false_or]
      exact list_any_ext allowed (fun r => by rw [← hpt r]; rfl)
  · intro allowed
    have hpt : ∀ r : String,
        ((["client"] : List String).contains r) = dominates "client" r := by
      intro r
      simp [dominates, List.contains_cons, Bool.or_assoc]
    unfold checkRolePermission
    cases h : allowed.contains "client" with
    | true => simp [h]
    | false =>
      simp only [h, Bool.false_eq_true, if_false, Bool.not_false, if_true,
        Bool.false_or]
      exact list_any_ext allowed (fun r => by rw [← hpt r]; rfl)

/-! ## Claim C6 — structural failures reject before any verify call -/

/-- C6 counterexample: a request with no token at all is answered 401
with code `TOKEN_MISSING`, not `TOKEN_INVALID_FORMAT` as the claim
states for the "missing" case. -/
theorem missing_token_C6_counterexample :
    (authenticateToken ⟨none, .error "e", .error "e", none, 0⟩).response =
      some ⟨401, "TOKEN_MISSING"⟩ ∧
    ("TOKEN_MISSING" : String) ≠ "TOKEN_INVALID_FORMAT" := by
  constructor
  · rfl
  · decide

/-- C6 (amended): a missing token is answered 401 `TOKEN_MISSING`, and a
present token failing structural format validation is answered 401
`TOKEN_INVALID_FORMAT`; in both cases the identity provider's verify
operation is never invoked (`verifyCalled = false`). -/
theorem structural_fail_fast_C6 (env : AuthEnv) :
    (env.token = none →
      authenticateToken env = ⟨some ⟨401, "TOKEN_MISSING"⟩, false, none⟩) ∧
    (∀ t, env.token = some t → isValidJWTFormat t = false →
      authenticateToken env = ⟨some ⟨401, "TOKEN_INVALID_FORMAT"⟩, false, none⟩) := by
  constructor
  · intro h
    simp [authenticateToken, h]
  · intro t ht hf
    simp [authenticateToken, ht, hf]

/-- Witness for C6's theorem: a missing token and the malformed token
`"not.a.jwt"`, both rejected without a verify call. -/
theorem structural_fail_fast_C6_witness :
    authenticateToken ⟨none, .error "e", .error "e", none, 0⟩ =
      ⟨some ⟨401, "TOKEN_MISSING"⟩, false, none⟩ ∧
    authenticateToken ⟨some "not.a.jwt", .error "e", .error "e", none, 0⟩ =
      ⟨some ⟨401, "TOKEN_INVALID_FORMAT"⟩, false, none⟩ :=
  ⟨(structural_fail_fast_C6 ⟨none, .error "e", .error "e", none, 0⟩).1 rfl,
   (structural_fail_fast_C6 ⟨some "not.a.jwt", .error "e", .error "e", none, 0⟩).2
     "not.a.jwt" rfl (by decide)⟩

/-! ## Claim C7 — claim-semantic validation after provider success -/

/-- C7: once the provider has verified the token, the middleware answers
401 `TOKEN_CLAIMS_INVALID` exactly when the decoded claims fail the
semantic checks — expiration strictly in the future, issued-at at most
60 s in the future, audience and issuer present and non-empty — and that
code is distinct from every provider-mapped error code. -/
theorem claims_validation_C7 (env : AuthEnv) (t : String) (d : DecodedToken)
    (ht : env.token = some t) (hf : isValidJWTFormat t = true)
    (hv : env.verifyOutcome = .ok d) :
    ((authenticateToken env).response = some ⟨401, "TOKEN_CLAIMS_INVALID"⟩ ↔
      ¬ (env.now < d.exp ∧ d.iat ≤ env.now + 60 ∧ d.aud ≠ "" ∧ d.iss ≠ "")) ∧
    (∀ c, (handleAuthError c).code ≠ "TOKEN_CLAIMS_INVALID") := by
  refine ⟨?_, handleAuthError_code_ne⟩
  simp only [authenticateToken, ht, hf, hv, eq_self_iff_true, not_true,
    Bool.not_eq_true, if_false]
  by_cases hok : isTokenValid d env.now = true
  · have hprop := (isTokenValid_iff d env.now).mp hok
    have hcond : ¬ (isTokenValid d env.now = false) := by simp [hok]
    rw [if_neg hcond, iff_false_intro (not_not_intro hprop), iff_false]
    cases hg : env.getUserOutcome with
    | error c =>
      simp only [hg]
      intro heq
      rw [Option.some.injEq] at heq
      exact handleAuthError_code_ne c (by rw [heq])
    | ok u =>
      by_cases hd : u.disabled = true
      · simp [hg, hd]
      · cases hs : env.supaUser with
        | none => simp [hg, hd, hs]
        | some s =>
          by_cases hrs : s.role = "inactive" ∨ s.is_suspended = true
          · simp [hg, hd, hs, hrs]
          · simp [hg, hd, hs, hrs]
  · have hok' : isTokenValid d env.now = false := by simpa using hok
    have hprop : ¬ (env.now < d.exp ∧ d.iat ≤ env.now + 60 ∧ d.aud ≠ "" ∧ d.iss ≠ "") :=
      fun hc => hok ((isTokenValid_iff d env.now).mpr hc)
    rw [if_pos hok']
    simp [hprop]

/-- Witness for C7's theorem: a verified token whose `exp` is not in the
future is answered 401 `TOKEN_CLAIMS_INVALID`. -/
theorem claims_validation_C7_witness :
    (authenticateToken
      ⟨some "eyJx.y.z", .ok ⟨"fb1", 0, 0, "aud", "iss"⟩,
       .error "e", none, 0⟩).response = some ⟨401, "TOKEN_CLAIMS_INVALID"⟩ :=
  ((claims_validation_C7
      ⟨some "eyJx.y.z", .ok ⟨"fb1", 0, 0, "aud", "iss"⟩, .error "e", none, 0⟩
      "eyJx.y.z" ⟨"fb1", 0, 0, "aud", "iss"⟩ rfl (by decide) rfl).1).mpr
    (by intro h; exact absurd h.1 (by decide))

/-! ## Rate-limiter step lemmas -/

theorem rateLimitStep_within_allow (m w now c r : Nat)
    (hr : now ≤ r) (hc : c < m) :
    rateLimitStep m w now (some ⟨c, r⟩) = (.allowed, some ⟨c + 1, r⟩) := by
  simp only [rateLimitStep]
  rw [if_neg (show ¬ now > r by omega), if_neg (show ¬ c ≥ m by omega)]

theorem rateLimitStep_within_reject (m w now c r : Nat)
    (hr : now ≤ r) (hc : m ≤ c) :
    rateLimitStep m w now (some ⟨c, r⟩) =
      (.rejected ⟨429, "RATE_LIMIT_EXCEEDED", secondsUntilReset r now⟩,
       some ⟨c, r⟩) := by
  simp only [rateLimitStep]
  rw [if_neg (show ¬ now > r by omega), if_pos (show c ≥ m by omega)]

theorem rateLimitStep_rollover (m w now c r : Nat) (hr : r < now) :
    rateLimitStep m w now (some ⟨c, r⟩) = (.allowed, some ⟨1, now + w⟩) := by
  simp only [rateLimitStep]
  rw [if_pos (show now > r by omega)]

/-! ## Claim C8 — six requests in one window, then a fresh window -/

/-- C8: with max = 5 and windowMs = 1000, six requests from the same key
whose last five all land within the first request's window produce
exactly the outcome sequence allow ×5 then one 429 rejection (the 6th),
and a 7th request after the window's reset time has passed is allowed
and starts a fresh window with count 1. -/
theorem rate_limit_window_C8 (t0 t1 t2 t3 t4 t5 t6 : Nat)
    (h1 : t1 ≤ t0 + 1000) (h2 : t2 ≤ t0 + 1000) (h3 : t3 ≤ t0 + 1000)
    (h4 : t4 ≤ t0 + 1000) (h5 : t5 ≤ t0 + 1000) (h6 : t0 + 1000 < t6) :
    rateLimitRun 5 1000 [t0, t1, t2, t3, t4, t5] none =
      ([.allowed, .allowed, .allowed, .allowed, .allowed,
        .rejected ⟨429, "RATE_LIMIT_EXCEEDED", secondsUntilReset (t0 + 1000) t5⟩],
       some ⟨5, t0 + 1000⟩) ∧
    rateLimitStep 5 1000 t6 (some ⟨5, t0 + 1000⟩) =
      (.allowed, some ⟨1, t6 + 1000⟩) := by
  have s0 : rateLimitStep 5 1000 t0 none = (.allowed, some ⟨1, t0 + 1000⟩) := rfl
  have s1 := rateLimitStep_within_allow 5 1000 t1 1 (t0 + 1000) h1 (by omega)
  have s2 := rateLimitStep_within_allow 5 1000 t2 2 (t0 + 1000) h2 (by omega)
  have s3 := rateLimitStep_within_allow 5 1000 t3 3 (t0 + 1000) h3 (by omega)
  have s4 := rateLimitStep_within_allow 5 1000 t4 4 (t0 + 1000) h4 (by omega)
  have s5 := rateLimitStep_within_reject 5 1000 t5 5 (t0 + 1000) h5 (by omega)
  constructor
  · simp only [rateLimitRun, s0, s1, s2, s3, s4, s5]
  · exact rateLimitStep_rollover 5 1000 t6 5 (t0 + 1000) h6

/-- Witness for C8's theorem: requests at t = 0 ×6 and the 7th at
t = 1001. -/
theorem rate_limit_window_C8_witness :
    rateLimitRun 5 1000 [0, 0, 0, 0, 0, 0] none =
      ([.allowed, .allowed, .allowed, .allowed, .allowed,
        .rejected ⟨429, "RATE_LIMIT_EXCEEDED", secondsUntilReset (0 + 1000) 0⟩],
       some ⟨5, 0 + 1000⟩) ∧
    rateLimitStep 5 1000 1001 (some ⟨5, 0 + 1000⟩) =
      (.allowed, some ⟨1, 1001 + 1000⟩) :=
  rate_limit_window_C8 0 0 0 0 0 0 1001 (by omega) (by omega) (by omega)
    (by omega) (by omega) (by omega)

/-! ## Claim C9 — retryAfter on rate-limit rejections -/

/-- C9 counterexample: the auth.js `createRateLimit` handler's rejection
body for the default 15-minute window carries `retryAfter = 900` even at
an instant where only 1 second remains until the window's reset — its
`retryAfter` is the constant `ceil(windowMs/1000)`, not the seconds
remaining. -/
theorem createRateLimit_retryAfter_C9_counterexample :
    (createRateLimitBody 900000).retryAfter = 900 ∧
    secondsUntilReset 900000 899000 = 1 ∧
    (createRateLimitBody 900000).retryAfter ≠ secondsUntilReset 900000 899000 := by
  decide

/-- C9 (amended): every rate-limit rejection carries status 429 and code
`RATE_LIMIT_EXCEEDED`; the part_000 limiter's `retryAfter` equals the
seconds remaining until the current window's reset, while the auth.js
`createRateLimit` handler's `retryAfter` is the constant
`ceil(windowMs/1000)` regardless of the clock. -/
theorem rate_limit_retry_after_C9 (m w now c r : Nat)
    (hr : now ≤ r) (hc : m ≤ c) :
    rateLimitStep m w now (some ⟨c, r⟩) =
      (.rejected ⟨429, "RATE_LIMIT_EXCEEDED", secondsUntilReset r now⟩,
       some ⟨c, r⟩) ∧
    (∀ windowMs : Nat,
      createRateLimitBody windowMs = ⟨429, "RATE_LIMIT_EXCEEDED", ceilSeconds windowMs⟩) :=
  ⟨rateLimitStep_within_reject m w now c r hr hc, fun _ => rfl⟩

/-- Witness for C9's theorem: a rejection 400 ms into a 1 s window
carries `retryAfter = 1`. -/
theorem rate_limit_retry_after_C9_witness :
    rateLimitStep 5 1000 400 (some ⟨5, 1000⟩) =
      (.rejected ⟨429, "RATE_LIMIT_EXCEEDED", secondsUntilReset 1000 400⟩,
       some ⟨5, 1000⟩) ∧
    (∀ windowMs : Nat,
      createRateLimitBody windowMs = ⟨429, "RATE_LIMIT_EXCEEDED", ceilSeconds windowMs⟩) :=
  rate_limit_retry_after_C9 5 1000 400 5 1000 (by omega) (by omega)

/-! ## Claim C10 — reconciliation is idempotent for first login -/

/-- C10: starting from a table with no record for the external id and
none for the email, the first reconcile call inserts exactly one record
and the second call — the same (externalId, email) pair — finds that
record via the external-id lookup, performing no further insert or
update and leaving the table unchanged. -/
theorem reconcile_idempotent_C10 (uid email tokenRole : String)
    (freshId freshId2 : Nat) (db : List UserRecord)
    (h1 : findByFirebaseUid db uid = none)
    (h2 : findByEmail db email = none) :
    reconcileUser uid email tokenRole freshId db =
      .ok ⟨provisionedRecord uid email tokenRole freshId,
           db ++ [provisionedRecord uid email tokenRole freshId], 1, 0⟩ ∧
    reconcileUser uid email tokenRole freshId2
        (db ++ [provisionedRecord uid email tokenRole freshId]) =
      .ok ⟨provisionedRecord uid email tokenRole freshId,
           db ++ [provisionedRecord uid email tokenRole freshId], 0, 0⟩ ∧
    (db ++ [provisionedRecord uid email tokenRole freshId]).length =
      db.length + 1 := by
  have hfind : findByFirebaseUid
      (db ++ [provisionedRecord uid email tokenRole freshId]) uid =
      some (provisionedRecord uid email tokenRole freshId) := by
    unfold findByFirebaseUid
    rw [List.find?_append]
    unfold findByFirebaseUid at h1
    rw [h1]
    simp [provisionedRecord]
  refine ⟨?_, ?_, by simp⟩
  · unfold reconcileUser
    rw [h1, h2]
    rfl
  · unfold reconcileUser
    rw [hfind]

/-- Witness for C10's theorem: first login of `fb1 / a@b.c` against an
empty table. -/
theorem reconcile_idempotent_C10_witness :
    reconcileUser "fb1" "a@b.c" "" 7 [] =
      .ok ⟨provisionedRecord "fb1" "a@b.c" "" 7,
           [] ++ [provisionedRecord "fb1" "a@b.c" "" 7], 1, 0⟩ ∧
    reconcileUser "fb1" "a@b.c" "" 8
        ([] ++ [provisionedRecord "fb1" "a@b.c" "" 7]) =
      .ok ⟨provisionedRecord "fb1" "a@b.c" "" 7,
           [] ++ [provisionedRecord "fb1" "a@b.c" "" 7], 0, 0⟩ ∧
    (([] : List UserRecord) ++ [provisionedRecord "fb1" "a@b.c" "" 7]).length =
      ([] : List UserRecord).length + 1 :=
  reconcile_idempotent_C10 "fb1" "a@b.c" "" 7 8 [] (by decide) (by decide)

end AuthMw
